import Mathlib

/-!
Verification development for the interactive shell subsystem of the CLI
repository: the persistent PTY-based command executor with its builtin
interceptor and session state (src/ifw/shell/exec_shell.py), and the
shell-command/natural-language classifier (src/ifw/shell/is_shell.py).

The Python code is shallowly embedded: pure string manipulation becomes
Lean functions over lists of characters, the mutable ShellExecutor object
becomes explicit state passing over a ShellState record, and the operating
system (filesystem layout, path resolution, process environment, the
output and exit code a spawned child produces) is an explicit OS record of
oracles, so that each theorem quantifies over all OS behaviours.
-/

deriving instance DecidableEq for Except

/-! ### Python string primitives

Helpers reproducing the exact Python string operations the source uses,
implemented over character lists so that all of them reduce in the kernel.
-/

/-- Characters Python treats as whitespace for str.split() and str.strip()
(ASCII range; the source never feeds non-ASCII whitespace to these). -/
def isPySpace (c : Char) : Bool :=
  c == ' ' || c == '\t' || c == '\n' || c == '\r' || c == '\x0b' || c == '\x0c'

/-- Python str.strip(): drop leading and trailing whitespace. -/
def pyStrip (s : String) : String :=
  ((s.toList.dropWhile isPySpace).reverse.dropWhile isPySpace).reverse.asString

/-- Accumulator worker for pySplit: current word is held reversed. -/
def pySplitAux : List Char → List Char → List String
  | [], acc => if acc = [] then [] else [acc.reverse.asString]
  | c :: rest, acc =>
    if isPySpace c then
      (if acc = [] then [] else [acc.reverse.asString]) ++ pySplitAux rest []
    else
      pySplitAux rest (c :: acc)

/-- Python str.split() with no arguments: split on runs of whitespace,
discarding empty pieces.  Used by the builtin interceptor (line 300 of
exec_shell.py: command.strip().split()); stripping first does not change
the result, so the model takes the unstripped string. -/
def pySplit (s : String) : List String :=
  pySplitAux s.toList []

/-- Python str.lower() (ASCII letters; the inputs of interest are ASCII). -/
def pyLower (s : String) : String :=
  (s.toList.map Char.toLower).asString

/-- Boolean string-prefix test over character lists. -/
def strHasPrefix (s pre : String) : Bool :=
  pre.toList.isPrefixOf s.toList

/-- Boolean string-suffix test over character lists. -/
def strHasSuffix (s suf : String) : Bool :=
  suf.toList.isSuffixOf s.toList

/-- Concatenation of a list of strings: Python "".join(chunks). -/
def strConcat : List String → String
  | [] => ""
  | x :: xs => x ++ strConcat xs

/-- Python " ".join(words). -/
def strJoinSpace : List String → String
  | [] => ""
  | [x] => x
  | x :: xs => x ++ " " ++ strJoinSpace xs

/-- os.path.join for the shapes the cd handler uses (the second argument is
never absolute there because the absolute case is dispatched earlier; the
absolute case is still modeled for faithfulness to os.path.join). -/
def pathJoin (a b : String) : String :=
  if strHasPrefix b "/" then b
  else if a = "" then b
  else if strHasSuffix a "/" then a ++ b
  else a ++ "/" ++ b

/-! ### Environment map

Python dict with string keys, modeled as an insertion-ordered association
list: assignment replaces in place when the key exists, else appends. -/

/-- Python dict assignment env[k] = v. -/
def envSet : List (String × String) → String → String → List (String × String)
  | [], k, v => [(k, v)]
  | (k', v') :: rest, k, v =>
    if k' = k then (k, v) :: rest else (k', v') :: envSet rest k v

/-- Python dict lookup env.get(k). -/
def envGet : List (String × String) → String → Option String
  | [], _ => none
  | (k', v') :: rest, k => if k' = k then some v' else envGet rest k

theorem envGet_envSet_self (e : List (String × String)) (k v : String) :
    envGet (envSet e k v) k = some v := by
  induction e with
  | nil => simp [envSet, envGet]
  | cons kv rest ih =>
    obtain ⟨k', v'⟩ := kv
    by_cases h : k' = k
    · simp [envSet, envGet, h]
    · simp [envSet, envGet, h, ih]

/-! ### ANSI escape stripping

exec_shell.py line 133 removes the regex matches of
ESC [ [0-9;]* [mK] from the captured output (SGR color sequences and
erase-in-line sequences).  The regex scanner is reproduced exactly: a
candidate match starts at an ESC immediately followed by a bracket, the
parameter run is digits and semicolons, and the final byte must be m or K;
a failed candidate leaves every character in place and scanning resumes
after the ESC. -/

/-- One-pass scanner for the regex substitution.  The second argument is
the pending candidate match: [] when scanning normally, a single ESC after
seeing ESC, or ESC bracket followed by the parameter bytes consumed so
far.  A candidate that completes with a final byte m or K is dropped; a
candidate that fails is emitted verbatim and scanning resumes at the
failing character (which can only extend or start a match if it is itself
an ESC, since parameter bytes and the bracket never begin a match). -/
def stripAnsiAux : List Char → List Char → List Char
  | [], pend => pend
  | c :: rest, [] =>
    if c = '\x1b' then stripAnsiAux rest ['\x1b']
    else c :: stripAnsiAux rest []
  | c :: rest, ['\x1b'] =>
    if c = '[' then stripAnsiAux rest ['\x1b', '[']
    else if c = '\x1b' then '\x1b' :: stripAnsiAux rest ['\x1b']
    else '\x1b' :: c :: stripAnsiAux rest []
  | c :: rest, pend =>
    if ('0' ≤ c && c ≤ '9') || c == ';' then stripAnsiAux rest (pend ++ [c])
    else if c == 'm' || c == 'K' then stripAnsiAux rest []
    else if c = '\x1b' then pend ++ stripAnsiAux rest ['\x1b']
    else pend ++ (c :: stripAnsiAux rest [])

/-- The cleaned form of a captured string, as produced by line 133 of
exec_shell.py. -/
def stripAnsi (s : String) : String :=
  (stripAnsiAux s.toList []).asString

example : stripAnsi "\x1b[31mred\x1b[0m" = "red" := by decide

example : stripAnsi "\x1b[2Jx" = "\x1b[2Jx" := by decide

example : stripAnsi "\x1b[K\x1b[" = "\x1b[" := by decide

example : stripAnsi "\x1b[12\x1b[0mX" = "\x1b[12X" := by decide

example : pySplit "  cd   /tmp " = ["cd", "/tmp"] := by decide

example : pyStrip "  hi \n" = "hi" := by decide

/-! ### The operating system, as seen by the executor

The ShellExecutor reads the OS through os.getcwd, os.environ,
os.path.expanduser, os.path.abspath, os.path.isdir, and through the
output and exit code of the child that the PTY spawns.  All of these are
collected in one oracle record so every theorem is universally quantified
over OS behaviour.  The executor itself never calls os.chdir, so
os.getcwd returns the same value at construction time and at every later
reset_state call; it is therefore modeled as the constant field cwd. -/

structure OS where
  /-- os.getcwd(): the startup working directory of the process. -/
  cwd : String
  /-- os.environ at process start (reset_state re-copies it unchanged,
  because the PTY variant of the executor never writes os.environ). -/
  environ : List (String × String)
  /-- os.path.expanduser. -/
  expanduser : String → String
  /-- os.path.isdir. -/
  isDir : String → Bool
  /-- os.path.abspath. -/
  abspath : String → String
  /-- The chunks the I/O pump captures into output_buffer while the given
  command runs under the PTY (decoded text, in arrival order). -/
  shellOutput : String → List String
  /-- The exit code process.wait() returns for the given command. -/
  shellExit : String → Int

/-- The arguments of the subprocess.Popen call at lines 99 to 107 of
exec_shell.py that are relevant to the claims: one record is produced for
every spawned child, recording the command text and the cwd and env
keyword arguments it was started with. -/
structure SpawnRecord where
  command : String
  cwd : String
  env : List (String × String)
deriving DecidableEq

/-- The persistent state of a ShellExecutor: current_dir, the previous_dir
attribute (absent until the first successful cd stores it, hence Option),
env_vars, shell_history and output_buffer. -/
structure ShellState where
  current_dir : String
  previous_dir : Option String
  env_vars : List (String × String)
  shell_history : List String
  output_buffer : List String
deriving DecidableEq

/-- ShellExecutor.__init__ (lines 17 to 36): current_dir = os.getcwd(),
env_vars = os.environ.copy(), empty history and output buffer, and no
previous_dir attribute yet. -/
def initState (os : OS) : ShellState :=
  { current_dir := os.cwd
  , previous_dir := none
  , env_vars := os.environ
  , shell_history := []
  , output_buffer := [] }

/-- ShellExecutor.get_current_directory (line 365). -/
def getCurrentDirectory (s : ShellState) : String :=
  s.current_dir

/-- The target-resolution half of ShellExecutor._handle_cd_command
(lines 322 to 339): compute new_dir from the split command parts, or the
early error return for a dash with no recorded previous directory.  The
empty-parts case cannot arise in the program (the caller reaches this
only when the first token exists and is cd); it is given the same value
as the no-argument case. -/
def cdNewDir (os : OS) (s : ShellState) (cmdParts : List String) : Except String String :=
  match cmdParts with
  | [] => Except.ok (os.expanduser "~")
  | [_] => Except.ok (os.expanduser "~")
  | _ :: target :: _ =>
    if target = "-" then
      match s.previous_dir with
      | some p => Except.ok p
      | none => Except.error "❌ No previous directory"
    else if strHasPrefix target "~" then Except.ok (os.expanduser target)
    else if strHasPrefix target "/" then Except.ok target
    else Except.ok (pathJoin s.current_dir target)

/-- ShellExecutor._handle_cd_command (lines 322 to 352): resolve the
target with os.path.abspath, validate with os.path.isdir, and only then
commit previous_dir, current_dir and the PWD entry of env_vars; on a
non-directory, return the error string built from cmd_parts[1] (or tilde
when absent) and leave the state untouched. -/
def handleCdCommand (os : OS) (s : ShellState) (cmdParts : List String) :
    ShellState × String :=
  match cdNewDir os s cmdParts with
  | Except.error e => (s, e)
  | Except.ok newDir =>
    let resolved := os.abspath newDir
    if os.isDir resolved then
      ({ s with previous_dir := some s.current_dir
              , current_dir := resolved
              , env_vars := envSet s.env_vars "PWD" resolved }, "")
    else
      (s, "❌ cd: no such file or directory: " ++ (cmdParts.drop 1).headD "~")

/-- ShellExecutor._handle_builtin_command (lines 298 to 306): split the
command on whitespace and report whether the first token is cd — the only
builtin this executor intercepts (the source comment reads: let the shell
handle export, unset, etc. normally). -/
def handleBuiltinCommand (command : String) : Bool :=
  match pySplit command with
  | [] => false
  | t :: _ => t == "cd"

/-- ShellExecutor._get_builtin_output (lines 308 to 320).  The empty-split
case is unreachable (guarded by _handle_builtin_command) and modeled as a
no-op. -/
def getBuiltinOutput (os : OS) (s : ShellState) (command : String) :
    ShellState × String :=
  match pySplit command with
  | [] => (s, "")
  | cmd :: _ =>
    if cmd = "cd" then handleCdCommand os s (pySplit command)
    else (s, "")

/-- The captured-output cleaning of lines 129 to 134: join the buffer,
strip, remove the ANSI escape matches, strip again. -/
def cleanCaptured (chunks : List String) : String :=
  pyStrip (stripAnsi (pyStrip (strConcat chunks)))

/-- The non-zero-exit marker of line 143. -/
def exitMarker (code : Int) : String :=
  "❌ Command exited with code " ++ toString code

/-- ShellExecutor._execute_with_pty (lines 78 to 156), restricted to its
sequential, exception-free behaviour: the child is spawned with
cwd = current_dir and env = env_vars (recorded in the SpawnRecord), the
output buffer is cleared and then filled with what the I/O pump captured,
and the returned string is the cleaned captured output, with the exit
marker appended (after a newline when there was output) on a non-zero
exit code.  The KeyboardInterrupt and exception returns and the PTY file
descriptor management are real-time and OS-resource behaviour outside the
shallow embedding. -/
def executeWithPty (os : OS) (s : ShellState) (command : String) :
    ShellState × String × Option SpawnRecord :=
  let chunks := os.shellOutput command
  let exitCode := os.shellExit command
  let sp : SpawnRecord :=
    { command := command, cwd := s.current_dir, env := s.env_vars }
  let clean := cleanCaptured chunks
  let out :=
    if exitCode = 0 then clean
    else if clean ≠ "" then clean ++ "\n" ++ exitMarker exitCode
    else exitMarker exitCode
  ({ s with output_buffer := chunks }, out, some sp)

/-- ShellExecutor.execute_shell_command (lines 42 to 56): record the
command in the history, then either handle it as an intercepted builtin
(no subprocess: the SpawnRecord component is none) or execute it with the
PTY. -/
def executeShellCommand (os : OS) (s : ShellState) (command : String) :
    ShellState × String × Option SpawnRecord :=
  let s1 := { s with shell_history := s.shell_history ++ [command] }
  if handleBuiltinCommand command then
    let r := getBuiltinOutput os s1 command
    (r.1, r.2, none)
  else
    executeWithPty os s1 command

/-- ShellExecutor.reset_state (lines 377 to 382): reassign current_dir,
env_vars, shell_history and output_buffer; the previous_dir attribute is
not touched. -/
def resetState (os : OS) (s : ShellState) : ShellState :=
  { s with current_dir := os.cwd
         , env_vars := os.environ
         , shell_history := []
         , output_buffer := [] }

/-- A run of several execute_shell_command calls: final state plus the
list of every SpawnRecord issued along the way. -/
def execTrace (os : OS) (s : ShellState) : List String → ShellState × List SpawnRecord
  | [] => (s, [])
  | c :: cs =>
    let r := executeShellCommand os s c
    let t := execTrace os r.1 cs
    (t.1, r.2.2.toList ++ t.2)

/-- The PWD entry of the session env map names the session working
directory. -/
def pwdSynced (s : ShellState) : Prop :=
  envGet s.env_vars "PWD" = some s.current_dir

instance (s : ShellState) : Decidable (pwdSynced s) := by
  unfold pwdSynced; infer_instance

/-! ### Interrupt entry point

interrupt_current_command reads only the process handle, so it is modeled
over that handle alone: self.process is None between commands, and
poll() returns none exactly while the child runs. -/

inductive Sig where
  | SIGINT
  | SIGTERM
  | SIGKILL
deriving DecidableEq

/-- The subprocess.Popen handle as interrupt_current_command sees it:
the process group id, and poll() — none while running. -/
structure ProcHandle where
  pgid : Int
  exited : Option Int
deriving DecidableEq

/-- A child command process is currently running. -/
def procRunning (p : Option ProcHandle) : Bool :=
  match p with
  | some ph => ph.exited == none
  | none => false

/-- ShellExecutor.interrupt_current_command (lines 354 to 363): when a
process exists and poll() is None, send SIGINT to its process group and
return True; otherwise return False and send nothing.  The result pairs
the return value with the signal sent (signal kind and target group). -/
def interruptCurrentCommand (p : Option ProcHandle) :
    Bool × Option (Sig × Int) :=
  match p with
  | some ph =>
    match ph.exited with
    | none => (true, some (Sig.SIGINT, ph.pgid))
    | some _ => (false, none)
  | none => (false, none)

/-! ### The shell-command classifier (is_shell.py)

ShellCommandDetector.is_shell_command and its helpers.  Two ingredients
are external and appear as oracle fields: the set of executable names
collected from PATH and aliases (availableCommands with the runtime which
probe whichOk), and the natural-language pattern matcher
_check_natural_language_patterns, a list of fifty regular expressions plus
a stop-word-ratio heuristic (checkNL).  Every claim settled below consults
checkNL only on whitespace-only text, where the source function returns
True unconditionally at its first line (line 240: empty text is
shell-like), so nothing proved here depends on the pattern list itself. -/

structure ClassifierCtx where
  /-- self.available_commands: names from the PATH scan, the alias scan,
  and the cache of positive runtime probes. -/
  availableCommands : List String
  /-- _command_exists_runtime: the runtime which probe. -/
  whichOk : String → Bool
  /-- _check_natural_language_patterns, abstracted.  The source returns
  True on whitespace-only input; instances used in concrete statements
  keep that property. -/
  checkNL : String → Bool

/-! #### shlex.split

Python shlex.split runs the shlex lexer with posix=True and
whitespace_split=True, comments off.  That machine splits on runs of
space, tab, carriage return and newline; single quotes protect everything
up to the next single quote; double quotes protect everything up to the
next double quote except that a backslash escapes a backslash or a double
quote (and is otherwise kept literally together with the next character);
outside quotes a backslash escapes any single character; a quoted empty
string still yields a token.  It raises ValueError (modeled as none) on an
unclosed quote or a trailing backslash. -/

inductive LexMode where
  | normal
  | single
  | double
  | escNormal
  | escDouble
deriving DecidableEq

/-- shlex whitespace is space, tab, carriage return, newline (narrower
than str.split whitespace). -/
def isShlexSpace (c : Char) : Bool :=
  c == ' ' || c == '\t' || c == '\r' || c == '\n'

/-- The shlex.read_token state machine; cur is the token under
construction (some after a quote even when empty, so that quoted empty
strings become tokens). -/
def shlexRun : List Char → LexMode → Option String → List String → Option (List String)
  | [], LexMode.normal, cur, acc => some (acc ++ cur.toList)
  | [], _, _, _ => none
  | c :: rest, LexMode.normal, cur, acc =>
    if isShlexSpace c then
      match cur with
      | some t => shlexRun rest LexMode.normal none (acc ++ [t])
      | none => shlexRun rest LexMode.normal none acc
    else if c = '\'' then shlexRun rest LexMode.single (some (cur.getD "")) acc
    else if c = '"' then shlexRun rest LexMode.double (some (cur.getD "")) acc
    else if c = '\\' then shlexRun rest LexMode.escNormal (some (cur.getD "")) acc
    else shlexRun rest LexMode.normal (some ((cur.getD "").push c)) acc
  | c :: rest, LexMode.single, cur, acc =>
    if c = '\'' then shlexRun rest LexMode.normal cur acc
    else shlexRun rest LexMode.single (some ((cur.getD "").push c)) acc
  | c :: rest, LexMode.double, cur, acc =>
    if c = '"' then shlexRun rest LexMode.normal cur acc
    else if c = '\\' then shlexRun rest LexMode.escDouble cur acc
    else shlexRun rest LexMode.double (some ((cur.getD "").push c)) acc
  | c :: rest, LexMode.escNormal, cur, acc =>
    shlexRun rest LexMode.normal (some ((cur.getD "").push c)) acc
  | c :: rest, LexMode.escDouble, cur, acc =>
    if c = '"' ∨ c = '\\' then
      shlexRun rest LexMode.double (some ((cur.getD "").push c)) acc
    else
      shlexRun rest LexMode.double (some (((cur.getD "").push '\\').push c)) acc

/-- shlex.split, with none for the ValueError raised on malformed input
(unclosed quote or trailing escape). -/
def shlexSplit (s : String) : Option (List String) :=
  shlexRun s.toList LexMode.normal none []

example : shlexSplit "git commit -m 'fix the bug'" =
    some ["git", "commit", "-m", "fix the bug"] := by decide

example : shlexSplit "ls \"foo" = none := by decide

example : shlexSplit "ls \"foo\"" = some ["ls", "foo"] := by decide

example : shlexSplit "a\\ b ''" = some ["a b", ""] := by decide

/-- ShellCommandDetector._is_obvious_natural_language (lines 63 to 79). -/
def isObviousNaturalLanguage (text : String) : Bool :=
  let tl := pyStrip (pyLower text)
  strHasSuffix tl "?" ||
  (["what ", "how ", "why ", "when ", "where ", "who "].any
    (fun p => strHasPrefix tl p)) ||
  (["tell me", "can you", "please ", "i want", "i need"].any
    (fun p => strHasPrefix tl p))

/-- The fixed builtin name set of _is_valid_command (lines 84 to 120). -/
def shellBuiltins : List String :=
  ["cd", "pwd", "echo", "export", "source", "alias", "unalias", "history",
   "jobs", "fg", "bg", "kill", "wait", "exec", "eval", "test", "[",
   "printf", "read", "set", "unset", "shift", "exit", "return", "break",
   "continue", "which", "type", "command", "builtin", "declare", "local",
   "readonly", "true", "false"]

/-- ShellCommandDetector._is_valid_command (lines 81 to 135). -/
def isValidCommand (ctx : ClassifierCtx) (command : String) : Bool :=
  shellBuiltins.contains command ||
  ctx.availableCommands.contains command ||
  strHasPrefix command "./" ||
  strHasPrefix command "/" ||
  command.toList.contains '/' ||
  ctx.whichOk command

/-- The character walk of _extract_unquoted_parts (lines 215 to 229):
characters inside a quoted span are dropped, the delimiters themselves are
dropped, everything else is kept. -/
def extractUnquotedLoop : List Char → Option Char → List Char
  | [], _ => []
  | c :: rest, none =>
    if c = '\'' ∨ c = '"' then extractUnquotedLoop rest (some c)
    else c :: extractUnquotedLoop rest none
  | c :: rest, some q =>
    if c = q then extractUnquotedLoop rest none
    else extractUnquotedLoop rest (some q)

/-- ShellCommandDetector._extract_unquoted_parts (lines 215 to 236):
strip the unquoted characters, split them on whitespace, drop the first
word (the command) and rejoin with single spaces. -/
def extractUnquotedParts (text : String) : String :=
  let unquoted := pyStrip (extractUnquotedLoop text.toList none).asString
  match pySplit unquoted with
  | [] => ""
  | _ :: ws => strJoinSpace ws

/-- ShellCommandDetector._args_follow_shell_patterns_lenient
(lines 188 to 213). -/
def argsFollowShellPatternsLenient (ctx : ClassifierCtx)
    (originalInput : String) (parsedArgs : List String) : Bool :=
  if parsedArgs.isEmpty then true
  else
    let hasQuotes :=
      originalInput.toList.contains '\'' || originalInput.toList.contains '"'
    if hasQuotes then
      let unquotedParts := extractUnquotedParts originalInput
      if pyStrip unquotedParts = "" then true
      else ctx.checkNL unquotedParts
    else
      ctx.checkNL (strJoinSpace parsedArgs)

/-- ShellCommandDetector.is_shell_command (lines 153 to 186): empty input
is not a command; obvious natural language is not a command; then the
input is tokenized with shlex.split inside a try block whose ValueError
handler returns False directly; the first token must be a valid command
and the arguments must pass the lenient pattern check. -/
def isShellCommand (ctx : ClassifierCtx) (userInput : String) : Bool :=
  if pyStrip userInput = "" then false
  else if isObviousNaturalLanguage userInput then false
  else
    match shlexSplit userInput with
    | none => false
    | some [] => false
    | some (command :: args) =>
      if !(isValidCommand ctx command) then false
      else argsFollowShellPatternsLenient ctx userInput args

/-- Modelled from the spec: step 3 of the classifier algorithm in
section 4.1, which the source does not implement — on lex failure, retry
by appending a closing quote, then fall back to naive whitespace split.
Used only to compare the described algorithm with is_shell_command. -/
def classifySpecTokens (input : String) : List String :=
  match shlexSplit input with
  | some ts => ts
  | none =>
    match shlexSplit (input ++ "\"") with
    | some ts => ts
    | none => pySplit input

/-- Modelled from the spec: the full classifier contract of section 4.1
(steps 1 to 7), with step 3 as classifySpecTokens; steps 5 and 6 check the
unquoted residue, which trivially passes when it is whitespace-only, and
otherwise defer to the same pattern matcher the source uses. -/
def classifySpec (ctx : ClassifierCtx) (input : String) : Bool :=
  if pyStrip input = "" then false
  else if isObviousNaturalLanguage input then false
  else
    match classifySpecTokens input with
    | [] => false
    | command :: _ =>
      if !(isValidCommand ctx command) then false
      else
        let residue := extractUnquotedParts input
        if pyStrip residue = "" then true
        else ctx.checkNL residue

/-! ### Concrete fixtures for the closed statements -/

/-- A small concrete operating system for closed statements: identity
path resolution on already-canonical paths, three existing directories,
and a child oracle with one failing command. -/
def osW : OS :=
  { cwd := "/home/user"
  , environ := [("PWD", "/home/user"), ("SHELL", "/bin/bash")]
  , expanduser := fun s => if s = "~" then "/home/user" else s
  , isDir := fun p => p == "/home/user" || p == "/tmp" || p == "/home/user/proj"
  , abspath := fun p => p
  , shellOutput := fun c =>
      if c = "echo hello" then ["hello\r\n"]
      else if c = "colors" then ["\x1b[31mred\x1b[0m\r\n"]
      else []
  , shellExit := fun c => if c = "exit 3" then 3 else 0 }

/-- A concrete classifier context: a few PATH commands, a runtime probe
that finds nothing, and a pattern matcher that (like the source function
on its first line) accepts whitespace-only text; its value elsewhere is
never consulted by the statements below. -/
def ctxW : ClassifierCtx :=
  { availableCommands := ["ls", "git", "grep"]
  , whichOk := fun _ => false
  , checkNL := fun s => pyStrip s == "" }

/-! ### Helper lemmas -/

theorem strHasPrefix_append (a b : String) : strHasPrefix (a ++ b) a = true := by
  unfold strHasPrefix
  rw [show (a ++ b).toList = a.toList ++ b.toList from String.data_append a b]
  rw [List.isPrefixOf_iff_prefix]
  exact List.prefix_append _ _

theorem strHasPrefix_append_left (a b p : String) (h : strHasPrefix a p = true) :
    strHasPrefix (a ++ b) p = true := by
  unfold strHasPrefix at *
  rw [List.isPrefixOf_iff_prefix] at *
  refine h.trans ?_
  rw [show (a ++ b).toList = a.toList ++ b.toList from String.data_append a b]
  exact List.prefix_append _ _

theorem append_ne_empty_left (a b : String) (h : a ≠ "") : a ++ b ≠ "" := by
  intro hc
  apply h
  have hd : a.data ++ b.data = [] := by
    have := congrArg String.data hc
    rwa [String.data_append] at this
  exact String.ext (by simpa using (List.append_eq_nil.mp hd).1)

theorem cdNewDir_hist (os : OS) (s : ShellState) (h parts : List String) :
    cdNewDir os { s with shell_history := h } parts = cdNewDir os s parts := by
  cases parts with
  | nil => rfl
  | cons a t =>
    cases t with
    | nil => rfl
    | cons b t2 => rfl

theorem handleBuiltin_of_cd (cmd : String) (ts : List String)
    (h : pySplit cmd = "cd" :: ts) : handleBuiltinCommand cmd = true := by
  unfold handleBuiltinCommand
  rw [h]
  simp

theorem handleBuiltin_head_iff (cmd : String) :
    handleBuiltinCommand cmd = true ↔ (pySplit cmd).head? = some "cd" := by
  unfold handleBuiltinCommand
  cases h : pySplit cmd with
  | nil => simp
  | cons t ts => simp [beq_iff_eq]

theorem getBuiltinOutput_cd (os : OS) (s : ShellState) (cmd : String)
    (ts : List String) (h : pySplit cmd = "cd" :: ts) :
    getBuiltinOutput os s cmd = handleCdCommand os s (pySplit cmd) := by
  unfold getBuiltinOutput
  rw [h]
  simp [← h]

theorem exec_cd (os : OS) (s : ShellState) (cmd : String) (ts : List String)
    (h : pySplit cmd = "cd" :: ts) :
    executeShellCommand os s cmd =
      ((handleCdCommand os { s with shell_history := s.shell_history ++ [cmd] }
          (pySplit cmd)).1,
       (handleCdCommand os { s with shell_history := s.shell_history ++ [cmd] }
          (pySplit cmd)).2,
       none) := by
  unfold executeShellCommand
  rw [if_pos (by simpa using handleBuiltin_of_cd cmd ts h)]
  rw [getBuiltinOutput_cd os _ cmd ts h]

theorem exec_pty (os : OS) (s : ShellState) (cmd : String)
    (h : handleBuiltinCommand cmd = false) :
    executeShellCommand os s cmd =
      executeWithPty os { s with shell_history := s.shell_history ++ [cmd] } cmd := by
  unfold executeShellCommand
  rw [if_neg (by simp [h])]

theorem handleCd_err (os : OS) (s : ShellState) (parts : List String) (e : String)
    (h : cdNewDir os s parts = Except.error e) :
    handleCdCommand os s parts = (s, e) := by
  unfold handleCdCommand
  rw [h]

theorem handleCd_success (os : OS) (s : ShellState) (parts : List String)
    (nd : String) (h1 : cdNewDir os s parts = Except.ok nd)
    (h2 : os.isDir (os.abspath nd) = true) :
    handleCdCommand os s parts =
      ({ s with previous_dir := some s.current_dir
              , current_dir := os.abspath nd
              , env_vars := envSet s.env_vars "PWD" (os.abspath nd) }, "") := by
  unfold handleCdCommand
  rw [h1]
  simp [h2]

theorem handleCd_notdir (os : OS) (s : ShellState) (parts : List String)
    (nd : String) (h1 : cdNewDir os s parts = Except.ok nd)
    (h2 : os.isDir (os.abspath nd) = false) :
    handleCdCommand os s parts =
      (s, "❌ cd: no such file or directory: " ++ (parts.drop 1).headD "~") := by
  unfold handleCdCommand
  rw [h1]
  simp [h2]

theorem cdNewDir_error_eq (os : OS) (s : ShellState) (parts : List String)
    (e : String) (h : cdNewDir os s parts = Except.error e) :
    e = "❌ No previous directory" := by
  unfold cdNewDir at h
  split at h
  · simp at h
  · simp at h
  · split at h
    · split at h
      · simp at h
      · simp at h
        exact h.symm
    · split at h
      · simp at h
      · split at h
        · simp at h
        · simp at h

theorem handleCd_snd_empty_iff (os : OS) (s : ShellState) (parts : List String) :
    (handleCdCommand os s parts).2 = "" ↔
      ∃ nd, cdNewDir os s parts = Except.ok nd ∧
        os.isDir (os.abspath nd) = true := by
  constructor
  · intro h
    cases hE : cdNewDir os s parts with
    | error e =>
      rw [handleCd_err os s parts e hE] at h
      rw [cdNewDir_error_eq os s parts e hE] at h
      exact absurd (show ("❌ No previous directory" : String) = "" from h)
        (by decide)
    | ok nd =>
      by_cases hd : os.isDir (os.abspath nd) = true
      · exact ⟨nd, rfl, hd⟩
      · rw [handleCd_notdir os s parts nd hE (by simpa using hd)] at h
        exact absurd h (append_ne_empty_left _ _ (by decide))
  · rintro ⟨nd, h1, h2⟩
    rw [handleCd_success os s parts nd h1 h2]

theorem exec_builtin (os : OS) (s : ShellState) (cmd : String)
    (hb : handleBuiltinCommand cmd = true) :
    executeShellCommand os s cmd =
      ((getBuiltinOutput os { s with shell_history := s.shell_history ++ [cmd] } cmd).1,
       (getBuiltinOutput os { s with shell_history := s.shell_history ++ [cmd] } cmd).2,
       none) := by
  unfold executeShellCommand
  rw [if_pos (by simpa using hb)]

theorem exec_spawn_pty (os : OS) (s : ShellState) (cmd : String)
    (hb : handleBuiltinCommand cmd = false) :
    (executeShellCommand os s cmd).2.2 =
      some { command := cmd, cwd := s.current_dir, env := s.env_vars } := by
  rw [exec_pty os s cmd hb]
  rfl

theorem pySplit_cd_of_head (cmd : String)
    (h : (pySplit cmd).head? = some "cd") :
    ∃ ts, pySplit cmd = "cd" :: ts := by
  cases hsp : pySplit cmd with
  | nil => rw [hsp] at h; simp at h
  | cons t ts => rw [hsp] at h; simp at h; exact ⟨ts, by rw [h]⟩

/-! ### Claims -/

/-- C1, counterexample: the first whitespace token of the input
export FOO=1 is export, yet the builtin interceptor declines it, the
dispatcher hands it to the PTY path (a subprocess is spawned, visible as
the SpawnRecord), and the session env map is left untouched — no FOO
entry appears.  This refutes the claim that export is handled entirely
in-process with the mutation going to the session env map. -/
theorem export_not_intercepted_cex :
    (pySplit "export FOO=1").head? = some "export" ∧
    handleBuiltinCommand "export FOO=1" = false ∧
    (executeShellCommand osW (initState osW) "export FOO=1").2.2 =
      some { command := "export FOO=1", cwd := "/home/user"
           , env := [("PWD", "/home/user"), ("SHELL", "/bin/bash")] } ∧
    (executeShellCommand osW (initState osW) "export FOO=1").1.env_vars =
      (initState osW).env_vars ∧
    envGet (executeShellCommand osW (initState osW) "export FOO=1").1.env_vars
      "FOO" = none := by
  decide

/-- C1, amended: execute_shell_command handles a command in-process
(spawning no subprocess) exactly when its first whitespace token is cd;
an input whose first token is pwd, export or unset is dispatched to the
PTY executor — a child is spawned with the session cwd and env — and its
execution leaves the session env map and current directory unchanged. -/
theorem only_cd_intercepted (os : OS) (s : ShellState) (cmd : String) :
    ((executeShellCommand os s cmd).2.2 = none ↔
      (pySplit cmd).head? = some "cd") ∧
    ((pySplit cmd).head? = some "pwd" ∨ (pySplit cmd).head? = some "export" ∨
        (pySplit cmd).head? = some "unset" →
      (∃ r, (executeShellCommand os s cmd).2.2 = some r ∧
        r.cwd = s.current_dir ∧ r.env = s.env_vars) ∧
      (executeShellCommand os s cmd).1.env_vars = s.env_vars ∧
      (executeShellCommand os s cmd).1.current_dir = s.current_dir) := by
  by_cases hb : handleBuiltinCommand cmd = true
  · have hcd := (handleBuiltin_head_iff cmd).mp hb
    rw [exec_builtin os s cmd hb]
    refine ⟨by simp [hcd], ?_⟩
    intro hcase
    rcases hcase with h | h | h <;> rw [hcd] at h <;> simp at h
  · have hb' : handleBuiltinCommand cmd = false := by simpa using hb
    have hncd : ¬ (pySplit cmd).head? = some "cd" := fun hc =>
      hb ((handleBuiltin_head_iff cmd).mpr hc)
    constructor
    · rw [exec_spawn_pty os s cmd hb']
      simp [hncd]
    · intro _
      refine ⟨⟨_, exec_spawn_pty os s cmd hb', rfl, rfl⟩, ?_, ?_⟩
      · rw [exec_pty os s cmd hb']
        rfl
      · rw [exec_pty os s cmd hb']
        rfl

/-- C1, witness for the amended claim at a concrete input: executing
export FOO=1 leaves the session env map unchanged. -/
theorem only_cd_intercepted_witness :
    (executeShellCommand osW (initState osW) "export FOO=1").1.env_vars =
      (initState osW).env_vars :=
  ((only_cd_intercepted osW (initState osW) "export FOO=1").2
    (by decide)).2.1

/-- C2 (confirmed): a cd invocation whose resolved target fails the
isdir check returns a string prefixed with the cross-mark and leaves both
current_dir (as reported by get_current_directory) and previous_dir
exactly as they were. -/
theorem cd_failure_preserves_state (os : OS) (s : ShellState) (cmd : String)
    (ts : List String) (nd : String)
    (hparts : pySplit cmd = "cd" :: ts)
    (hok : cdNewDir os s (pySplit cmd) = Except.ok nd)
    (hbad : os.isDir (os.abspath nd) = false) :
    strHasPrefix (executeShellCommand os s cmd).2.1 "❌" = true ∧
    getCurrentDirectory (executeShellCommand os s cmd).1 =
      getCurrentDirectory s ∧
    (executeShellCommand os s cmd).1.previous_dir = s.previous_dir := by
  rw [exec_cd os s cmd ts hparts]
  have hok1 : cdNewDir os
      { s with shell_history := s.shell_history ++ [cmd] } (pySplit cmd) =
      Except.ok nd := by
    rw [cdNewDir_hist]
    exact hok
  rw [handleCd_notdir os _ (pySplit cmd) nd hok1 hbad]
  exact ⟨strHasPrefix_append_left _ _ _ (by decide), rfl, rfl⟩

/-- C2, witness: cd /nope on the concrete OS (where /nope is not a
directory) errors with a cross-mark prefix and preserves the state. -/
theorem cd_failure_preserves_state_witness :
    strHasPrefix (executeShellCommand osW (initState osW) "cd /nope").2.1
      "❌" = true ∧
    getCurrentDirectory (executeShellCommand osW (initState osW) "cd /nope").1 =
      getCurrentDirectory (initState osW) ∧
    (executeShellCommand osW (initState osW) "cd /nope").1.previous_dir =
      (initState osW).previous_dir :=
  cd_failure_preserves_state osW (initState osW) "cd /nope" ["/nope"] "/nope"
    (by decide) (by decide) (by decide)

/-- C6 (confirmed): interrupt_current_command returns true exactly when a
child command process is currently running; in that case the signal it
sends is SIGINT (not SIGKILL) addressed to the process group of that
child, and when nothing is running it returns false and sends nothing.
The source wraps the body in a bare try/except returning False, so the
call never raises; the model is total by construction. -/
theorem interrupt_iff_running (p : Option ProcHandle) :
    ((interruptCurrentCommand p).1 = true ↔ procRunning p = true) ∧
    (procRunning p = true →
      ∃ ph, p = some ph ∧
        (interruptCurrentCommand p).2 = some (Sig.SIGINT, ph.pgid)) ∧
    (procRunning p = false → interruptCurrentCommand p = (false, none)) := by
  cases p with
  | none => simp [interruptCurrentCommand, procRunning]
  | some ph =>
    cases hE : ph.exited with
    | none =>
      refine ⟨by simp [interruptCurrentCommand, procRunning, hE], ?_, ?_⟩
      · intro _
        exact ⟨ph, rfl, by simp [interruptCurrentCommand, hE]⟩
      · intro hfalse
        simp [procRunning, hE] at hfalse
    | some c =>
      refine ⟨by simp [interruptCurrentCommand, procRunning, hE], ?_, ?_⟩
      · intro htrue
        simp [procRunning, hE] at htrue
      · intro _
        simp [interruptCurrentCommand, hE]

/-- C6, witness: with a running child of process group 42, the interrupt
entry point signals SIGINT to group 42. -/
theorem interrupt_iff_running_witness :
    (interruptCurrentCommand (some { pgid := 42, exited := none })).2 =
      some (Sig.SIGINT, 42) := by
  obtain ⟨ph, hph, hsig⟩ :=
    (interrupt_iff_running (some { pgid := 42, exited := none })).2.1 (by decide)
  injection hph with hph
  subst hph
  exact hsig

/-- C7 (confirmed): whatever sequence of commands was executed since the
session began, reset_state returns get_current_directory to the directory
the process was started in, the env map to the process environment, and
empties the history.  (The executor never calls os.chdir, so the
os.getcwd value read by reset_state is the startup directory.) -/
theorem reset_restores_startup (os : OS) (cmds : List String) :
    getCurrentDirectory
        (resetState os (execTrace os (initState os) cmds).1) = os.cwd ∧
    (resetState os (execTrace os (initState os) cmds).1).env_vars =
      os.environ ∧
    (resetState os (execTrace os (initState os) cmds).1).shell_history = [] :=
  ⟨rfl, rfl, rfl⟩

/-- C9 (confirmed): reset_state reinitializes current_dir, env_vars,
shell_history and output_buffer but does not clear previous_dir, so a
dash cd issued after the reset does not report a missing previous
directory — it swaps back to the pre-reset previous directory whenever
that directory still resolves to an existing one. -/
theorem reset_keeps_previous_dir (os : OS) (s : ShellState) (p : String)
    (hprev : s.previous_dir = some p) :
    (resetState os s).previous_dir = some p ∧
    (resetState os s).current_dir = os.cwd ∧
    (resetState os s).env_vars = os.environ ∧
    (resetState os s).shell_history = [] ∧
    (resetState os s).output_buffer = [] ∧
    (executeShellCommand os (resetState os s) "cd -").2.1 ≠
      "❌ No previous directory" ∧
    (os.isDir (os.abspath p) = true →
      (executeShellCommand os (resetState os s) "cd -").1.current_dir =
        os.abspath p ∧
      (executeShellCommand os (resetState os s) "cd -").1.previous_dir =
        some os.cwd) := by
  have hps : pySplit "cd -" = ["cd", "-"] := by decide
  rw [exec_cd os (resetState os s) "cd -" ["-"] hps]
  set s1 : ShellState :=
    { resetState os s with
        shell_history := (resetState os s).shell_history ++ ["cd -"] } with hs1
  have hnew : cdNewDir os s1 (pySplit "cd -") = Except.ok p := by
    rw [hps]
    simp [cdNewDir, resetState, hprev]
  refine ⟨hprev, rfl, rfl, rfl, rfl, ?_, ?_⟩
  · by_cases hd : os.isDir (os.abspath p) = true
    · rw [handleCd_success os s1 (pySplit "cd -") p hnew hd]
      show ("" : String) ≠ "❌ No previous directory"
      decide
    · rw [handleCd_notdir os s1 (pySplit "cd -") p hnew (by simpa using hd)]
      rw [hps]
      show "❌ cd: no such file or directory: " ++
        (List.drop 1 ["cd", "-"]).headD "~" ≠ "❌ No previous directory"
      decide
  · intro hd
    rw [handleCd_success os s1 (pySplit "cd -") p hnew hd]
    exact ⟨rfl, rfl⟩

/-- A concrete session state that has recorded a previous directory. -/
def sPrev : ShellState :=
  { current_dir := "/tmp"
  , previous_dir := some "/home/user"
  , env_vars := [("PWD", "/tmp"), ("SHELL", "/bin/bash")]
  , shell_history := ["cd /tmp"]
  , output_buffer := [] }

/-- C9, witness: resetting a session that had previously visited
/home/user keeps that previous directory, and a dash cd after the reset
lands in it. -/
theorem reset_keeps_previous_dir_witness :
    (resetState osW sPrev).previous_dir = some "/home/user" ∧
    (executeShellCommand osW (resetState osW sPrev) "cd -").1.current_dir =
      "/home/user" :=
  ⟨(reset_keeps_previous_dir osW sPrev "/home/user" rfl).1,
   ((reset_keeps_previous_dir osW sPrev "/home/user" rfl).2.2.2.2.2.2
     (by decide)).1⟩

/-- C10 (confirmed): the builtin cd interceptor tokenizes with a naive
whitespace split rather than shell lexing — shown by contrasting the two
tokenizations of the same input — its behaviour depends only on the
second whitespace token (any further tokens are ignored), and on the
concrete input with a quoted directory name it resolves the literal
token beginning with the double quote, as the error message shows. -/
theorem cd_naive_tokenization :
    pySplit "cd \"My Documents\"" = ["cd", "\"My", "Documents\""] ∧
    shlexSplit "cd \"My Documents\"" = some ["cd", "My Documents"] ∧
    (∀ (os : OS) (s : ShellState) (t : String) (rest : List String),
      handleCdCommand os s ("cd" :: t :: rest) = handleCdCommand os s ["cd", t]) ∧
    (executeShellCommand osW (initState osW) "cd \"My Documents\"").2.1 =
      "❌ cd: no such file or directory: \"My" := by
  refine ⟨by decide, by decide, ?_, by decide⟩
  intro os s t rest
  rfl

/-- C3 (confirmed): for a PTY-executed command, a zero exit code returns
exactly the cleaned captured output (possibly the empty string — success
with no output), and a non-zero exit code returns the cleaned captured
output followed on a new line by the exit marker, or the exit marker
alone when the cleaned output is empty. -/
theorem pty_result_format (os : OS) (s : ShellState) (cmd : String)
    (hpty : handleBuiltinCommand cmd = false) :
    (os.shellExit cmd = 0 →
      (executeShellCommand os s cmd).2.1 = cleanCaptured (os.shellOutput cmd)) ∧
    (os.shellExit cmd ≠ 0 →
      (cleanCaptured (os.shellOutput cmd) ≠ "" →
        (executeShellCommand os s cmd).2.1 =
          cleanCaptured (os.shellOutput cmd) ++ "\n" ++
            exitMarker (os.shellExit cmd)) ∧
      (cleanCaptured (os.shellOutput cmd) = "" →
        (executeShellCommand os s cmd).2.1 = exitMarker (os.shellExit cmd))) := by
  rw [exec_pty os s cmd hpty]
  unfold executeWithPty
  constructor
  · intro h0
    simp [h0]
  · intro hn
    constructor
    · intro hne
      simp [hn, hne]
    · intro he
      simp [hn, he]

/-- C3, witness: exit 3 produces no output on the concrete OS, so the
result is exactly the exit marker for code 3. -/
theorem pty_result_format_witness :
    (executeShellCommand osW (initState osW) "exit 3").2.1 =
      "❌ Command exited with code 3" := by
  have h := ((pty_result_format osW (initState osW) "exit 3" (by decide)).2
    (by decide)).2 (by decide)
  rw [h]
  decide

/-- C4, counterexample: on the input ls followed by an unterminated
double-quoted word, shell lexing fails; the source classifier returns
false directly from its ValueError handler, while the classifier the
claim describes (retry with a closing quote, then naive whitespace
split) accepts it as a shell command.  The claimed retry and fallback do
not exist in the code. -/
theorem lex_retry_cex :
    shlexSplit "ls \"foo" = none ∧
    isShellCommand ctxW "ls \"foo" = false ∧
    classifySpec ctxW "ls \"foo" = true := by
  decide

/-- C4, amended: when shell lexing of the input fails, is_shell_command
returns false immediately — there is no retry with an appended closing
quote and no whitespace-split fallback; the classifier is total (the
ValueError is caught, and the model is total by construction), and
malformed input always classifies as natural language. -/
theorem lex_failure_returns_false (ctx : ClassifierCtx) (input : String)
    (h : shlexSplit input = none) : isShellCommand ctx input = false := by
  by_cases h1 : pyStrip input = ""
  · simp [isShellCommand, h1]
  · by_cases h2 : isObviousNaturalLanguage input = true
    · simp [isShellCommand, h1, h2]
    · simp [isShellCommand, h1, h2, h]

/-- C4, witness: a concrete malformed input (unterminated quote after a
known command) classifies as natural language. -/
theorem lex_failure_returns_false_witness :
    isShellCommand ctxW "echo \"oops" = false :=
  lex_failure_returns_false ctxW "echo \"oops" (by decide)

/-- C5 (confirmed): after a successful cd (from a state whose current
directory is canonical and exists, as every reachable state's is), a
dash cd swaps back: the current directory returns to the pre-cd value and
previous_dir becomes the directory the first cd had moved to; and a dash
cd issued when no previous directory was ever recorded returns the error
string and changes neither current_dir nor previous_dir. -/
theorem cd_dash_roundtrip (os : OS) (s : ShellState) (cmd target : String)
    (hparts : pySplit cmd = ["cd", target])
    (hcanon : os.abspath s.current_dir = s.current_dir)
    (hdir : os.isDir s.current_dir = true)
    (hsucc : (executeShellCommand os s cmd).2.1 = "") :
    getCurrentDirectory (executeShellCommand os
        (executeShellCommand os s cmd).1 "cd -").1 = getCurrentDirectory s ∧
    (executeShellCommand os (executeShellCommand os s cmd).1 "cd -").2.1 = "" ∧
    (executeShellCommand os
        (executeShellCommand os s cmd).1 "cd -").1.previous_dir =
      some (executeShellCommand os s cmd).1.current_dir ∧
    (∀ s0 : ShellState, s0.previous_dir = none →
      (executeShellCommand os s0 "cd -").2.1 = "❌ No previous directory" ∧
      (executeShellCommand os s0 "cd -").1.current_dir = s0.current_dir ∧
      (executeShellCommand os s0 "cd -").1.previous_dir = none) := by
  have hps : pySplit "cd -" = ["cd", "-"] := by decide
  rw [exec_cd os s cmd [target] hparts] at hsucc ⊢
  have hsucc2 : (handleCdCommand os
      { s with shell_history := s.shell_history ++ [cmd] } (pySplit cmd)).2 =
      "" := hsucc
  obtain ⟨nd, hok, hd⟩ := (handleCd_snd_empty_iff os _ (pySplit cmd)).mp hsucc2
  rw [handleCd_success os _ (pySplit cmd) nd hok hd]
  rw [exec_cd os _ "cd -" ["-"] hps]
  have hnew : cdNewDir os
      { { { s with shell_history := s.shell_history ++ [cmd] } with
            previous_dir :=
              some { s with shell_history := s.shell_history ++ [cmd] }.current_dir
          , current_dir := os.abspath nd
          , env_vars :=
              envSet { s with shell_history := s.shell_history ++ [cmd] }.env_vars
                "PWD" (os.abspath nd) } with
          shell_history :=
            { { s with shell_history := s.shell_history ++ [cmd] } with
                previous_dir :=
                  some { s with
                    shell_history := s.shell_history ++ [cmd] }.current_dir
              , current_dir := os.abspath nd
              , env_vars :=
                  envSet { s with
                    shell_history := s.shell_history ++ [cmd] }.env_vars
                    "PWD" (os.abspath nd) }.shell_history ++ ["cd -"] }
      (pySplit "cd -") = Except.ok s.current_dir := by
    rw [hps]
    rfl
  have hd2 : os.isDir (os.abspath s.current_dir) = true := by
    rw [hcanon]
    exact hdir
  rw [handleCd_success os _ (pySplit "cd -") s.current_dir hnew hd2]
  refine ⟨?_, rfl, rfl, ?_⟩
  · show os.abspath s.current_dir = s.current_dir
    exact hcanon
  · intro s0 h0
    rw [exec_cd os s0 "cd -" ["-"] hps]
    have herr : cdNewDir os
        { s0 with shell_history := s0.shell_history ++ ["cd -"] }
        (pySplit "cd -") = Except.error "❌ No previous directory" := by
      rw [hps]
      simp [cdNewDir, h0]
    rw [handleCd_err os _ (pySplit "cd -") _ herr]
    exact ⟨rfl, rfl, h0⟩

/-- C5, witness: on the concrete OS, cd /tmp then the dash cd returns to
the startup directory. -/
theorem cd_dash_roundtrip_witness :
    getCurrentDirectory (executeShellCommand osW
        (executeShellCommand osW (initState osW) "cd /tmp").1 "cd -").1 =
      getCurrentDirectory (initState osW) :=
  (cd_dash_roundtrip osW (initState osW) "cd /tmp" "/tmp" (by decide)
    (by decide) (by decide) (by decide)).1

theorem pwdSynced_exec (os : OS) (s : ShellState) (cmd : String)
    (h : pwdSynced s) :
    pwdSynced (executeShellCommand os s cmd).1 ∧
    (∀ r, (executeShellCommand os s cmd).2.2 = some r →
      envGet r.env "PWD" = some r.cwd) := by
  by_cases hb : handleBuiltinCommand cmd = true
  · obtain ⟨ts, hts⟩ :=
      pySplit_cd_of_head cmd ((handleBuiltin_head_iff cmd).mp hb)
    rw [exec_cd os s cmd ts hts]
    constructor
    · cases hE : cdNewDir os
          { s with shell_history := s.shell_history ++ [cmd] } (pySplit cmd) with
      | error e =>
        rw [handleCd_err os _ (pySplit cmd) e hE]
        exact h
      | ok nd =>
        by_cases hd : os.isDir (os.abspath nd) = true
        · rw [handleCd_success os _ (pySplit cmd) nd hE hd]
          exact envGet_envSet_self _ _ _
        · rw [handleCd_notdir os _ (pySplit cmd) nd hE (by simpa using hd)]
          exact h
    · intro r hr
      exact Option.noConfusion hr
  · have hb' : handleBuiltinCommand cmd = false := by simpa using hb
    constructor
    · rw [exec_pty os s cmd hb']
      exact h
    · intro r hr
      rw [exec_spawn_pty os s cmd hb'] at hr
      injection hr with hr
      subst hr
      exact h

theorem pwdSynced_trace (os : OS) (cmds : List String) :
    ∀ s : ShellState, pwdSynced s →
      pwdSynced (execTrace os s cmds).1 ∧
      ∀ r ∈ (execTrace os s cmds).2, envGet r.env "PWD" = some r.cwd := by
  induction cmds with
  | nil =>
    intro s h
    refine ⟨h, ?_⟩
    intro r hr
    simp [execTrace] at hr
  | cons c cs ih =>
    intro s h
    have hstep := pwdSynced_exec os s c h
    have hrec := ih (executeShellCommand os s c).1 hstep.1
    simp only [execTrace]
    refine ⟨hrec.1, ?_⟩
    intro r hr
    rw [List.mem_append] at hr
    rcases hr with hr | hr
    · rcases Option.mem_toList.mp hr with hmem
      exact hstep.2 r hmem
    · exact hrec.2 r hr

/-- C8 (confirmed): a successful cd sets the PWD entry of the session env
map to the new current directory, and every subsequent
execute_shell_command call preserves the invariant that PWD names the
session working directory (only a successful cd rewrites both together);
moreover every child spawned from then on receives an env whose PWD entry
equals the cwd it is started in. -/
theorem pwd_invariant_after_cd (os : OS) (s : ShellState) (cmd : String)
    (hcd : (pySplit cmd).head? = some "cd")
    (hsucc : (executeShellCommand os s cmd).2.1 = "")
    (cmds : List String) :
    pwdSynced (execTrace os (executeShellCommand os s cmd).1 cmds).1 ∧
    ∀ r ∈ (execTrace os (executeShellCommand os s cmd).1 cmds).2,
      envGet r.env "PWD" = some r.cwd := by
  obtain ⟨ts, hts⟩ := pySplit_cd_of_head cmd hcd
  rw [exec_cd os s cmd ts hts] at hsucc ⊢
  have hsucc2 : (handleCdCommand os
      { s with shell_history := s.shell_history ++ [cmd] } (pySplit cmd)).2 =
      "" := hsucc
  obtain ⟨nd, hok, hd⟩ := (handleCd_snd_empty_iff os _ (pySplit cmd)).mp hsucc2
  rw [handleCd_success os _ (pySplit cmd) nd hok hd]
  exact pwdSynced_trace os cmds _ (envGet_envSet_self _ _ _)

/-- C8, witness: after cd /tmp on the concrete OS, running a further
command keeps PWD equal to the session working directory. -/
theorem pwd_invariant_after_cd_witness :
    pwdSynced (execTrace osW
      (executeShellCommand osW (initState osW) "cd /tmp").1 ["echo hello"]).1 :=
  (pwd_invariant_after_cd osW (initState osW) "cd /tmp" (by decide) (by decide)
    ["echo hello"]).1
